import Mathlib

/-!
# Verification of `lib/netdev-windows.c` (OVS Windows netdev provider)

Shallow embedding of the netdev query/caching layer:

* the message codec (`netdev_windows_netdev_to_ofpbuf`,
  `netdev_windows_netdev_from_ofpbuf`),
* the one-time family binding (`netdev_windows_init`),
* the query orchestrator (`query_netdev`),
* the device cache and its accessors (`netdev_windows_system_construct`,
  `netdev_windows_get_etheraddr`, `netdev_windows_get_mtu`),
* the two published device classes.

Buffers are modelled as a fixed-header region of raw bytes (the three
headers the decoder pulls off the front) together with an abstract list of
typed attributes: the byte-level encoding and alignment of attributes is
owned by the netlink transport collaborator and is not redefined by this
module.  Machine integers are `Nat` (the code never exercises overflow on
the paths in scope); C out-parameters become explicit result components;
the process-wide globals of the C file (`ovs_win_netdev_family`, the
`ovsthread_once` guard, the socket) become an explicit `OnceState` threaded
through the operations; the external collaborators (family resolver, socket
creation, transport transaction) are parameters.
-/

/-- `EINVAL` errno value. -/
def EINVAL : Nat := 22

/-- `ENOENT` errno value. -/
def ENOENT : Nat := 2

/-- `EOPNOTSUPP` errno value. -/
def EOPNOTSUPP : Nat := 95

/-- `ETH_ADDR_LEN`: length of an Ethernet MAC address in bytes. -/
def ETH_ADDR_LEN : Nat := 6

/-- `IFNAMSIZ`: bound on an interface name (policy `max_len` of the name
attribute). -/
def IFNAMSIZ : Nat := 16

/-- `VALID_ETHERADDR = 1 << 0` (source line 39). -/
def VALID_ETHERADDR : Nat := 1 <<< 0

/-- `VALID_MTU = 1 << 1` (source line 40). -/
def VALID_MTU : Nat := 1 <<< 1

/-- `VALID_IFFLAG = 1 << 5` (source line 41). -/
def VALID_IFFLAG : Nat := 1 <<< 5

/-- Modelled from the spec: the opcode constant `OVS_WIN_NETDEV_CMD_GET`
(declared in the datapath interface header, not under `src/`); the spec
only requires a small enumerated opcode "get".  Its numeric value does not
influence any behaviour in scope. -/
def OVS_WIN_NETDEV_CMD_GET : Nat := 1

/-- Modelled from the spec: the generic-netlink protocol version constant
`OVS_WIN_NETDEV_VERSION` (datapath interface header, not under `src/`). -/
def OVS_WIN_NETDEV_VERSION : Nat := 1

/-- `NLM_F_REQUEST | NLM_F_ECHO`, the flags written by the encoder. -/
def NLM_F_REQUEST_ECHO : Nat := 9

/-- Attribute identifiers `OVS_WIN_NETDEV_ATTR_*`.  Modelled from the spec:
the enum lives in the datapath interface header (not under `src/`); the
designated-initializer indices of the policy array in the source fix their
order `PORT_NO, TYPE, NAME, MAC_ADDR, MTU, IF_FLAGS`. -/
def OVS_WIN_NETDEV_ATTR_PORT_NO : Nat := 0

/-- Attribute identifier for the device-kind tag. -/
def OVS_WIN_NETDEV_ATTR_TYPE : Nat := 1

/-- Attribute identifier for the device name string. -/
def OVS_WIN_NETDEV_ATTR_NAME : Nat := 2

/-- Attribute identifier for the fixed 6-byte MAC address. -/
def OVS_WIN_NETDEV_ATTR_MAC_ADDR : Nat := 3

/-- Attribute identifier for the MTU. -/
def OVS_WIN_NETDEV_ATTR_MTU : Nat := 4

/-- Attribute identifier for the interface flags. -/
def OVS_WIN_NETDEV_ATTR_IF_FLAGS : Nat := 5

/-- Netlink attribute type tags used by the policy of this module:
`NL_A_U32`, `NL_A_STRING` and `NL_A_UNSPEC` (the `NL_POLICY_FOR` form for a
fixed-size byte array). -/
inductive NlAttrType where
  | u32
  | string
  | unspec
deriving DecidableEq, Repr

/-- A typed attribute of a protocol message body: identifier, type tag and
payload bytes.  The byte-level framing/alignment of attributes is owned by
the transport collaborator and left abstract. -/
structure NlAttr where
  id : Nat
  typeTag : NlAttrType
  payload : List Nat
deriving DecidableEq, Repr

/-- One entry of an attribute policy: expected type and length bounds
(`nl_policy`). -/
structure NlPolicyEntry where
  type : NlAttrType
  minLen : Nat
  maxLen : Option Nat
deriving DecidableEq, Repr

/-- The `ovs_netdev_policy` table of `netdev_windows_netdev_from_ofpbuf`
(source lines 201-208), indexed by attribute identifier:
`PORT_NO : NL_A_U32`, `TYPE : NL_A_U32`,
`NAME : NL_A_STRING, max_len = IFNAMSIZ`,
`MAC_ADDR : NL_POLICY_FOR(uint8_t[6])` (unspec, exactly 6 bytes),
`MTU : NL_A_U32`, `IF_FLAGS : NL_A_U32`. -/
def ovs_netdev_policy (id : Nat) : Option NlPolicyEntry :=
  if id = OVS_WIN_NETDEV_ATTR_PORT_NO then some ⟨.u32, 4, some 4⟩
  else if id = OVS_WIN_NETDEV_ATTR_TYPE then some ⟨.u32, 4, some 4⟩
  else if id = OVS_WIN_NETDEV_ATTR_NAME then some ⟨.string, 0, some IFNAMSIZ⟩
  else if id = OVS_WIN_NETDEV_ATTR_MAC_ADDR then
    some ⟨.unspec, ETH_ADDR_LEN, some ETH_ADDR_LEN⟩
  else if id = OVS_WIN_NETDEV_ATTR_MTU then some ⟨.u32, 4, some 4⟩
  else if id = OVS_WIN_NETDEV_ATTR_IF_FLAGS then some ⟨.u32, 4, some 4⟩
  else none

/-- Does one attribute conform to its policy entry?  An identifier absent
from the policy, a type-tag mismatch, or a payload length outside the
entry's bounds all fail. -/
def attrOK (a : NlAttr) : Bool :=
  match ovs_netdev_policy a.id with
  | none => false
  | some e =>
      a.typeTag = e.type && e.minLen ≤ a.payload.length &&
        (match e.maxLen with
         | some m => a.payload.length ≤ m
         | none => true)

/-- Payload of the last attribute with the given identifier (netlink keeps
the last occurrence on duplicates). -/
def findAttr (id : Nat) (attrs : List NlAttr) : Option (List Nat) :=
  match attrs.reverse.find? (fun a => a.id = id) with
  | some a => some a.payload
  | none => none

/-- The attribute payloads the decoder reads after a successful policy
parse, one per required identifier. -/
structure ParsedAttrs where
  port_no : List Nat
  ovs_type : List Nat
  name : List Nat
  mac : List Nat
  mtu : List Nat
  if_flags : List Nat
deriving DecidableEq, Repr

/-- Modelled from the spec: `nl_policy_parse` (`lib/netlink.c`, not under
`src/`).  Per §4.2 step 3 of the spec it scans the attribute stream,
verifies every attribute's identifier is known to the policy and its
encoded type/length match the policy entry, and fails if a required
attribute is missing (every attribute of this policy is required).  On
success it yields the payload of each required attribute. -/
def nl_policy_parse (attrs : List NlAttr) : Option ParsedAttrs :=
  if attrs.all attrOK && (List.range 6).all (fun i => (findAttr i attrs).isSome) then
    some { port_no := (findAttr OVS_WIN_NETDEV_ATTR_PORT_NO attrs).getD []
           ovs_type := (findAttr OVS_WIN_NETDEV_ATTR_TYPE attrs).getD []
           name := (findAttr OVS_WIN_NETDEV_ATTR_NAME attrs).getD []
           mac := (findAttr OVS_WIN_NETDEV_ATTR_MAC_ADDR attrs).getD []
           mtu := (findAttr OVS_WIN_NETDEV_ATTR_MTU attrs).getD []
           if_flags := (findAttr OVS_WIN_NETDEV_ATTR_IF_FLAGS attrs).getD [] }
  else none

/-- An `ofpbuf`: the fixed-header region as raw bytes plus the (abstractly
framed) attribute section. -/
structure OfpBuf where
  bytes : List Nat
  attrs : List NlAttr
deriving DecidableEq, Repr

/-- `ofpbuf_new`: a fresh, empty buffer. -/
def ofpbuf_new : OfpBuf := ⟨[], []⟩

/-- Little-endian 16-bit read at a byte offset (out-of-range bytes read as
0; every use below is guarded by a length check, mirroring
`ofpbuf_try_pull`). -/
def readU16le (l : List Nat) (off : Nat) : Nat :=
  l.getD off 0 % 256 + 256 * (l.getD (off + 1) 0 % 256)

/-- Little-endian 32-bit read at a byte offset. -/
def readU32le (l : List Nat) (off : Nat) : Nat :=
  l.getD off 0 % 256 + 256 * (l.getD (off + 1) 0 % 256)
    + 65536 * (l.getD (off + 2) 0 % 256)
    + 16777216 * (l.getD (off + 3) 0 % 256)

/-- Little-endian 16-bit byte encoding. -/
def u16le (n : Nat) : List Nat := [n % 256, n / 256 % 256]

/-- Little-endian 32-bit byte encoding. -/
def u32le (n : Nat) : List Nat :=
  [n % 256, n / 256 % 256, n / 65536 % 256, n / 16777216 % 256]

/-- `sizeof(struct nlmsghdr)`: `nlmsg_len` u32, `nlmsg_type` u16,
`nlmsg_flags` u16, `nlmsg_seq` u32, `nlmsg_pid` u32. -/
def NLMSG_HDRLEN : Nat := 16

/-- `sizeof(struct genlmsghdr)`: `cmd` u8, `version` u8, reserved u16. -/
def GENL_HDRLEN : Nat := 4

/-- `sizeof(struct ovs_header)`: `dp_ifindex` u32. -/
def OVS_HDRLEN : Nat := 4

/-- Total size of the three fixed headers the decoder pulls off the front
of a response buffer. -/
def FIXED_HDRLEN : Nat := NLMSG_HDRLEN + GENL_HDRLEN + OVS_HDRLEN

/-- Take exactly `n` elements, zero-padding a shortfall (used to model a
`memcpy` of `n` bytes from an attribute payload; a C over-read past a short
payload is modelled as reading zeros). -/
def takePad (n : Nat) (l : List Nat) : List Nat :=
  (l ++ List.replicate n 0).take n

/-- `struct netdev_windows_netdev_info` (source lines 60-74): the transient
query record.  `name` is a C pointer, `none` standing for `NULL`; string
contents are byte lists. -/
structure NetdevInfo where
  cmd : Nat
  dp_ifindex : Nat
  port_no : Nat
  ovs_type : Nat
  name : Option (List Nat)
  mac_address : List Nat
  mtu : Nat
  ifi_flags : Nat
deriving DecidableEq, Repr

/-- `netdev_windows_info_init` (source lines 191-195): `memset 0` of the
record — every numeric field 0, a `NULL` name, an all-zero MAC. -/
def netdev_windows_info_init : NetdevInfo :=
  { cmd := 0, dp_ifindex := 0, port_no := 0, ovs_type := 0,
    name := none, mac_address := List.replicate ETH_ADDR_LEN 0,
    mtu := 0, ifi_flags := 0 }

/-- The decoder's failure modes, following the spec's taxonomy.  The C
source collapses all three to `EINVAL`; the constructors record which of
the decoder's distinct guard conditions (source lines 219-226) fired. -/
inductive DecodeError where
  | truncatedHeader
  | familyMismatch
  | policyViolation
deriving DecidableEq, Repr

/-- `netdev_windows_netdev_from_ofpbuf` (source lines 197-240).  Resets the
out-parameter, pulls `nlmsghdr`, `genlmsghdr` and `ovs_header` off the
front (failing if the buffer is too short), checks `nlmsg_type` against the
resolved family, runs the policy parse over the attributes, then populates
the record.  Returns the resulting out-parameter value together with the
error (`none` on success; on any failure the out-parameter is still the
reset record).  NOTE: faithful to the source's line 234, `mac_address` is
copied from the NAME attribute's payload, not from the MAC_ADDR
attribute. -/
def netdev_windows_netdev_from_ofpbuf (family : Nat) (buf : OfpBuf) :
    NetdevInfo × Option DecodeError :=
  if buf.bytes.length < FIXED_HDRLEN then
    (netdev_windows_info_init, some .truncatedHeader)
  else if readU16le buf.bytes 4 ≠ family then
    (netdev_windows_info_init, some .familyMismatch)
  else
    match nl_policy_parse buf.attrs with
    | none => (netdev_windows_info_init, some .policyViolation)
    | some a =>
        ({ cmd := buf.bytes.getD NLMSG_HDRLEN 0,
           dp_ifindex := readU32le buf.bytes (NLMSG_HDRLEN + GENL_HDRLEN),
           port_no := readU32le a.port_no 0,
           ovs_type := readU32le a.ovs_type 0,
           name := some a.name,
           mac_address := takePad ETH_ADDR_LEN a.name,
           mtu := readU32le a.mtu 0,
           ifi_flags := readU32le a.if_flags 0 }, none)

/-- `netdev_windows_netdev_to_ofpbuf` (source lines 169-189).  Writes the
`nlmsghdr`+`genlmsghdr` pair (`nl_msg_put_genlmsghdr`: `nlmsg_len` filled
in later by the transport, `nlmsg_type` = family, flags
`NLM_F_REQUEST|NLM_F_ECHO`, seq/pid 0, then cmd/version/reserved), then the
`ovs_header`, and only then — if `name` is non-NULL — the name string
attribute; the error is `EINVAL` unless the name attribute was written. -/
def netdev_windows_netdev_to_ofpbuf (family : Nat) (info : NetdevInfo)
    (buf : OfpBuf) : OfpBuf × Nat :=
  let hdr := u32le 0 ++ u16le family ++ u16le NLM_F_REQUEST_ECHO
    ++ u32le 0 ++ u32le 0
    ++ [info.cmd % 256, OVS_WIN_NETDEV_VERSION, 0, 0]
  let buf1 : OfpBuf := { buf with bytes := buf.bytes ++ hdr ++ u32le info.dp_ifindex }
  match info.name with
  | some n =>
      ({ buf1 with
          attrs := buf1.attrs
            ++ [⟨OVS_WIN_NETDEV_ATTR_NAME, .string, n ++ [0]⟩] }, 0)
  | none => (buf1, EINVAL)

/-- Outcomes of the external collaborators consumed by the family binding:
the result of `nl_lookup_genl_family` (a family id or an errno) and of
`nl_sock_create` (an errno on failure). -/
structure GlobalEnv where
  resolver : Except Nat Nat
  sockCreate : Except Nat Unit
deriving Repr

/-- The process-wide globals of the C file: the `ovsthread_once` guard, the
resolved `ovs_win_netdev_family` (0 before a successful resolution, like
the zero-initialised C global) and whether `ovs_win_netdev_sock` was
created. -/
structure OnceState where
  once_done : Bool
  family : Nat
  sock : Bool
deriving DecidableEq, Repr

/-- The process state at load time: once-guard untriggered, family 0, no
socket. -/
def initialOnceState : OnceState := ⟨false, 0, false⟩

/-- `netdev_windows_init` (source lines 102-125).  The local `error` starts
at 0; only the first caller enters the once-block, resolving the family and
then creating the socket; every later caller skips the block and returns
the untouched local `error = 0`. -/
def netdev_windows_init (env : GlobalEnv) (st : OnceState) : Nat × OnceState :=
  if st.once_done then (0, st)
  else
    match env.resolver with
    | .error e => (e, { st with once_done := true })
    | .ok fam =>
        match env.sockCreate with
        | .error e2 => (e2, { once_done := true, family := fam, sock := false })
        | .ok _ => (0, { once_done := true, family := fam, sock := true })

/-- What `query_netdev` leaves for its caller: the returned error code, the
out-parameter `*info`, the response-buffer out-parameter `*bufp` (`none`
for `NULL`), and whether a transport transaction was attempted (the spec's
"no transaction is attempted" observations need this event recorded). -/
structure QueryResult where
  error : Nat
  info : NetdevInfo
  buf : Option OfpBuf
  transacted : Bool
deriving DecidableEq, Repr

/-- `query_netdev` (source lines 242-286).  Resets `*info`; runs the family
binding, failing fast on its error; builds the request (cmd `GET`, name =
`devname`), failing fast on the encode error; otherwise transacts.  After
the transaction the source decodes on transport success and, on any
(transport or decode) error, resets `*info`, frees the response and nulls
`*bufp` — and then reaches `return 0;` (line 285), so the error computed
after the transaction is never returned to the caller. -/
def query_netdev (env : GlobalEnv) (transact : OfpBuf → Except Nat OfpBuf)
    (devname : Option (List Nat)) (st : OnceState) :
    QueryResult × OnceState :=
  let r := netdev_windows_init env st
  let st1 := r.2
  if r.1 ≠ 0 then
    ({ error := r.1, info := netdev_windows_info_init, buf := none,
       transacted := false }, st1)
  else
    let info1 : NetdevInfo :=
      { netdev_windows_info_init with
          cmd := OVS_WIN_NETDEV_CMD_GET, name := devname }
    let enc := netdev_windows_netdev_to_ofpbuf st1.family info1 ofpbuf_new
    if enc.2 ≠ 0 then
      ({ error := enc.2, info := info1, buf := none, transacted := false }, st1)
    else
      match transact enc.1 with
      | .error _ =>
          ({ error := 0, info := netdev_windows_info_init, buf := none,
             transacted := true }, st1)
      | .ok resp =>
          match netdev_windows_netdev_from_ofpbuf st1.family resp with
          | (_, some _) =>
              ({ error := 0, info := netdev_windows_info_init, buf := none,
                 transacted := true }, st1)
          | (dinfo, none) =>
              ({ error := 0, info := dinfo, buf := some resp,
                 transacted := true }, st1)

/-- `struct netdev_windows` (source lines 45-57): the per-device cache.
The embedded generic `struct netdev up` carries nothing this core reads
beyond the device name, which is passed explicitly instead. -/
structure NetdevWindows where
  dev_type : Nat
  port_no : Nat
  change_seq : Nat
  cache_valid : Nat
  ifindex : Int
  mac : List Nat
  mtu : Nat
  ifi_flags : Nat
deriving DecidableEq, Repr

/-- `netdev_windows_alloc` (source lines 127-132): `xzalloc` yields an
all-zero record. -/
def netdev_windows_alloc : NetdevWindows :=
  { dev_type := 0, port_no := 0, change_seq := 0, cache_valid := 0,
    ifindex := 0, mac := List.replicate ETH_ADDR_LEN 0, mtu := 0,
    ifi_flags := 0 }

/-- `netdev_windows_system_construct` (source lines 134-167).  Queries the
device by name; on a nonzero query error returns it with the record
untouched; on success frees the response buffer and seeds the cache:
`change_seq := 1`, kind/port copied, MAC copied and `VALID_ETHERADDR`
raised, `ifindex := -EOPNOTSUPP`, MTU copied and `VALID_MTU` or-ed in,
flags copied and `VALID_IFFLAG` or-ed in. -/
def netdev_windows_system_construct (env : GlobalEnv)
    (transact : OfpBuf → Except Nat OfpBuf) (devname : Option (List Nat))
    (st : OnceState) (netdev : NetdevWindows) :
    (Nat × NetdevWindows) × OnceState :=
  let q := query_netdev env transact devname st
  if q.1.error ≠ 0 then ((q.1.error, netdev), q.2)
  else
    ((0, { netdev with
        change_seq := 1,
        dev_type := q.1.info.ovs_type,
        port_no := q.1.info.port_no,
        mac := q.1.info.mac_address,
        cache_valid := VALID_ETHERADDR ||| VALID_MTU ||| VALID_IFFLAG,
        ifindex := -(EOPNOTSUPP : Int),
        mtu := q.1.info.mtu,
        ifi_flags := q.1.info.ifi_flags }), q.2)

/-- `netdev_windows_internal_construct` (source lines 330-334): delegates
to the system construction routine. -/
def netdev_windows_internal_construct (env : GlobalEnv)
    (transact : OfpBuf → Except Nat OfpBuf) (devname : Option (List Nat))
    (st : OnceState) (netdev : NetdevWindows) :
    (Nat × NetdevWindows) × OnceState :=
  netdev_windows_system_construct env transact devname st netdev

/-- What an accessor produces: a value, or the invalid-state signal — the
`ovs_assert` on the validity bit fires when the bit is unset (an
assertion-disabled build would fall through to `return EINVAL`; either way
no cached value is produced). -/
inductive AccessorResult (α : Type) where
  | ok (val : α)
  | invalidState
deriving DecidableEq, Repr

/-- `netdev_windows_get_etheraddr` (source lines 301-313):
`ovs_assert(cache_valid & VALID_ETHERADDR)`, then copies the cached MAC
out. -/
def netdev_windows_get_etheraddr (netdev : NetdevWindows) :
    AccessorResult (List Nat) :=
  if netdev.cache_valid &&& VALID_ETHERADDR ≠ 0 then .ok netdev.mac
  else .invalidState

/-- `netdev_windows_get_mtu` (source lines 315-327):
`ovs_assert(cache_valid & VALID_MTU)`, then copies the cached MTU out. -/
def netdev_windows_get_mtu (netdev : NetdevWindows) : AccessorResult Nat :=
  if netdev.cache_valid &&& VALID_MTU ≠ 0 then .ok netdev.mtu
  else .invalidState

/-- Modelled from the spec: `struct netdev_class` (`lib/netdev-provider.h`,
not under `src/`) — the device-class operation table whose slots the
`NETDEV_WINDOWS_CLASS` macro populates; slots not named in the designated
initializer are null (`none`).  Only the slots this module defines or the
spec's device-abstraction contract mentions (`GetEtherAddress`, `GetMtu`)
are modelled. -/
structure NetdevClass where
  type : List Nat
  construct : Option (GlobalEnv → (OfpBuf → Except Nat OfpBuf) →
    Option (List Nat) → OnceState → NetdevWindows →
    (Nat × NetdevWindows) × OnceState)
  get_etheraddr : Option (NetdevWindows → AccessorResult (List Nat))
  get_mtu : Option (NetdevWindows → AccessorResult Nat)

/-- The `NETDEV_WINDOWS_CLASS(NAME, CONSTRUCT)` macro (source lines
337-346): sets `type`, `construct` and `get_etheraddr`; every other slot —
in particular `get_mtu` — is left null. -/
def NETDEV_WINDOWS_CLASS (name : List Nat)
    (construct : GlobalEnv → (OfpBuf → Except Nat OfpBuf) →
      Option (List Nat) → OnceState → NetdevWindows →
      (Nat × NetdevWindows) × OnceState) : NetdevClass :=
  { type := name,
    construct := some construct,
    get_etheraddr := some netdev_windows_get_etheraddr,
    get_mtu := none }

/-- `netdev_windows_class` (source lines 348-351): the "system" class. -/
def netdev_windows_class : NetdevClass :=
  NETDEV_WINDOWS_CLASS [115, 121, 115, 116, 101, 109]
    netdev_windows_system_construct

/-- `netdev_internal_class` (source lines 353-356): the "internal"
class. -/
def netdev_internal_class : NetdevClass :=
  NETDEV_WINDOWS_CLASS [105, 110, 116, 101, 114, 110, 97, 108]
    netdev_windows_internal_construct

/-- The byte string `"eth0"`, used as a concrete device name. -/
def ethName : List Nat := [101, 116, 104, 48]

/-- An environment whose family resolution succeeds with family id 5 and
whose socket creation succeeds. -/
def envOK : GlobalEnv := ⟨.ok 5, .ok ()⟩

/-- An environment whose family resolution fails with `ENOENT`. -/
def envNoFamily : GlobalEnv := ⟨.error ENOENT, .ok ()⟩

/-- Fixed-header bytes of a well-formed response for family 5:
`nlmsg_len = 0`, `nlmsg_type = 5`, flags/seq/pid 0, generic header
`cmd = 1, version = 1`, `dp_ifindex = 3`. -/
def goodRespBytes : List Nat :=
  [0, 0, 0, 0, 5, 0, 0, 0, 0, 0, 0, 0, 0, 0, 0, 0, 1, 1, 0, 0, 3, 0, 0, 0]

/-- A policy-conformant response buffer for family 5: port 2, kind 1, name
`"eth0\0"`, MAC `00:11:22:33:44:55`, MTU 1500, flags `0x1003`. -/
def goodResp : OfpBuf :=
  { bytes := goodRespBytes,
    attrs := [⟨OVS_WIN_NETDEV_ATTR_PORT_NO, .u32, [2, 0, 0, 0]⟩,
              ⟨OVS_WIN_NETDEV_ATTR_TYPE, .u32, [1, 0, 0, 0]⟩,
              ⟨OVS_WIN_NETDEV_ATTR_NAME, .string, [101, 116, 104, 48, 0]⟩,
              ⟨OVS_WIN_NETDEV_ATTR_MAC_ADDR, .unspec, [0, 17, 34, 51, 68, 85]⟩,
              ⟨OVS_WIN_NETDEV_ATTR_MTU, .u32, [220, 5, 0, 0]⟩,
              ⟨OVS_WIN_NETDEV_ATTR_IF_FLAGS, .u32, [3, 16, 0, 0]⟩] }

/-- C1: on a response buffer that fails to decode (here: an empty buffer,
a `TruncatedHeader` failure), `query_netdev` does discard the response
buffer and reset the caller's record, but it returns 0 — success — to its
caller instead of the decode error: the `return 0;` at source line 285
drops the error computed after the transaction. -/
theorem query_netdev_swallows_decode_error :
    (netdev_windows_netdev_from_ofpbuf 5 ofpbuf_new).2 = some .truncatedHeader
    ∧ (query_netdev envOK (fun _ => .ok ofpbuf_new) (some ethName)
        initialOnceState).1
      = { error := 0, info := netdev_windows_info_init, buf := none,
          transacted := true } := by
  decide

/-- C2: on a policy-conformant response whose NAME attribute carries
`"eth0\0"` and whose MAC_ADDR attribute carries `00:11:22:33:44:55`,
decode succeeds but the decoded record's `mac_address` holds the first six
bytes of the NAME attribute's payload, not the MAC_ADDR attribute's
payload: source line 234 reads the MAC through the name attribute. -/
theorem decoded_mac_is_name_attribute_bytes :
    (netdev_windows_netdev_from_ofpbuf 5 goodResp).2 = none
    ∧ findAttr OVS_WIN_NETDEV_ATTR_MAC_ADDR goodResp.attrs
        = some [0, 17, 34, 51, 68, 85]
    ∧ findAttr OVS_WIN_NETDEV_ATTR_NAME goodResp.attrs
        = some [101, 116, 104, 48, 0]
    ∧ (netdev_windows_netdev_from_ofpbuf 5 goodResp).1.mac_address
        = [101, 116, 104, 48, 0, 0]
    ∧ (netdev_windows_netdev_from_ofpbuf 5 goodResp).1.mac_address
        ≠ [0, 17, 34, 51, 68, 85] := by
  decide

/-- C3: when the first family-binding invocation fails with `ENOENT`, a
second invocation returns 0 — not the original error — because the local
`error` of `netdev_windows_init` starts at 0 and the once-block is skipped;
a subsequent `query_netdev` therefore sails past the binding check and
attempts a transport transaction. -/
theorem binding_failure_not_repeated :
    (netdev_windows_init envNoFamily initialOnceState).1 = ENOENT
    ∧ (netdev_windows_init envNoFamily
        (netdev_windows_init envNoFamily initialOnceState).2).1 = 0
    ∧ (query_netdev envNoFamily (fun _ => .error 11) (some ethName)
        (netdev_windows_init envNoFamily initialOnceState).2).1.transacted
      = true := by
  decide

/-- C4 counterexample: encoding a record with an absent (`NULL`) name does
fail with `EINVAL`, but the request buffer is not left empty — the three
fixed headers (24 bytes) were already written before the name check; and a
present-but-empty name is not rejected at all (the encoder's check is a
null-pointer test, not an emptiness test), so the claim "always fails and
produces no bytes" is false. -/
theorem empty_name_encode_claim_fails :
    (netdev_windows_netdev_to_ofpbuf 5
        { netdev_windows_info_init with
            cmd := OVS_WIN_NETDEV_CMD_GET, name := none } ofpbuf_new).2
      = EINVAL
    ∧ (netdev_windows_netdev_to_ofpbuf 5
        { netdev_windows_info_init with
            cmd := OVS_WIN_NETDEV_CMD_GET, name := none } ofpbuf_new).1.bytes.length
      = 24
    ∧ (netdev_windows_netdev_to_ofpbuf 5
        { netdev_windows_info_init with
            cmd := OVS_WIN_NETDEV_CMD_GET, name := some [] } ofpbuf_new).2
      = 0 := by
  decide

/-- C4 (amended): encoding a record whose name is absent always fails with
`EINVAL` and appends no attribute (the fixed headers are still written into
the request buffer, which `query_netdev` then discards), and a
`query_netdev` call with an absent name never attempts a transport
transaction. -/
theorem absent_name_encode_fails_without_transaction (family : Nat)
    (info : NetdevInfo) (buf : OfpBuf) (env : GlobalEnv)
    (transact : OfpBuf → Except Nat OfpBuf) (st : OnceState)
    (h : info.name = none) :
    (netdev_windows_netdev_to_ofpbuf family info buf).2 = EINVAL
    ∧ (netdev_windows_netdev_to_ofpbuf family info buf).1.attrs = buf.attrs
    ∧ (query_netdev env transact none st).1.transacted = false := by
  refine ⟨by simp [netdev_windows_netdev_to_ofpbuf, h],
          by simp [netdev_windows_netdev_to_ofpbuf, h], ?_⟩
  simp only [query_netdev]
  split
  · rfl
  · simp [netdev_windows_netdev_to_ofpbuf, EINVAL]

/-- C4 witness: the amended theorem applied at family 5, a reset record
(whose name is `NULL`), a fresh buffer, the successful environment, a
transport that would fail, and the initial process state. -/
theorem absent_name_encode_fails_without_transaction_witness :
    (netdev_windows_info_init.name = none)
    ∧ ((netdev_windows_netdev_to_ofpbuf 5 netdev_windows_info_init
          ofpbuf_new).2 = EINVAL
       ∧ (netdev_windows_netdev_to_ofpbuf 5 netdev_windows_info_init
            ofpbuf_new).1.attrs = ofpbuf_new.attrs
       ∧ (query_netdev envOK (fun _ => .error 11) none
            initialOnceState).1.transacted = false) :=
  ⟨rfl, absent_name_encode_fails_without_transaction 5 netdev_windows_info_init
      ofpbuf_new envOK (fun _ => .error 11) initialOnceState rfl⟩

/-- C5: whenever a construction (either variant) returns 0, the device
record holds exactly the ether-address, MTU and interface-flags validity
bits, `change_seq = 1`, and the cached MAC/MTU/flags are the corresponding
fields of the query record the construction consumed — so both accessors
return those values; the internal variant is the system variant. -/
theorem successful_construct_seeds_cache (env : GlobalEnv)
    (transact : OfpBuf → Except Nat OfpBuf) (devname : Option (List Nat))
    (st : OnceState) (nd : NetdevWindows)
    (h : ((netdev_windows_system_construct env transact devname st nd).1).1 = 0) :
    ((netdev_windows_system_construct env transact devname st nd).1).2.cache_valid
      = (VALID_ETHERADDR ||| VALID_MTU ||| VALID_IFFLAG)
    ∧ ((netdev_windows_system_construct env transact devname st nd).1).2.change_seq
      = 1
    ∧ ((netdev_windows_system_construct env transact devname st nd).1).2.mac
      = (query_netdev env transact devname st).1.info.mac_address
    ∧ ((netdev_windows_system_construct env transact devname st nd).1).2.mtu
      = (query_netdev env transact devname st).1.info.mtu
    ∧ ((netdev_windows_system_construct env transact devname st nd).1).2.ifi_flags
      = (query_netdev env transact devname st).1.info.ifi_flags
    ∧ netdev_windows_get_etheraddr
        ((netdev_windows_system_construct env transact devname st nd).1).2
      = .ok (query_netdev env transact devname st).1.info.mac_address
    ∧ netdev_windows_get_mtu
        ((netdev_windows_system_construct env transact devname st nd).1).2
      = .ok (query_netdev env transact devname st).1.info.mtu
    ∧ netdev_windows_internal_construct env transact devname st nd
      = netdev_windows_system_construct env transact devname st nd := by
  by_cases hq : (query_netdev env transact devname st).1.error ≠ 0
  · exfalso
    simp only [netdev_windows_system_construct] at h
    rw [if_pos hq] at h
    exact hq h
  · refine ⟨?_, ?_, ?_, ?_, ?_, ?_, ?_, rfl⟩ <;>
      simp only [netdev_windows_system_construct] <;> rw [if_neg hq] <;>
      simp [netdev_windows_get_etheraddr, netdev_windows_get_mtu,
        VALID_ETHERADDR, VALID_MTU, VALID_IFFLAG]

/-- C5 witness: a complete successful run — family 5 resolves, the
transport returns the policy-conformant response, and construction from a
fresh record succeeds. -/
theorem successful_construct_seeds_cache_witness :
    (((netdev_windows_system_construct envOK (fun _ => .ok goodResp)
        (some ethName) initialOnceState netdev_windows_alloc).1).1 = 0)
    ∧ (((netdev_windows_system_construct envOK (fun _ => .ok goodResp)
          (some ethName) initialOnceState netdev_windows_alloc).1).2.cache_valid
        = (VALID_ETHERADDR ||| VALID_MTU ||| VALID_IFFLAG)
      ∧ ((netdev_windows_system_construct envOK (fun _ => .ok goodResp)
          (some ethName) initialOnceState netdev_windows_alloc).1).2.change_seq
        = 1
      ∧ ((netdev_windows_system_construct envOK (fun _ => .ok goodResp)
          (some ethName) initialOnceState netdev_windows_alloc).1).2.mac
        = (query_netdev envOK (fun _ => .ok goodResp) (some ethName)
            initialOnceState).1.info.mac_address
      ∧ ((netdev_windows_system_construct envOK (fun _ => .ok goodResp)
          (some ethName) initialOnceState netdev_windows_alloc).1).2.mtu
        = (query_netdev envOK (fun _ => .ok goodResp) (some ethName)
            initialOnceState).1.info.mtu
      ∧ ((netdev_windows_system_construct envOK (fun _ => .ok goodResp)
          (some ethName) initialOnceState netdev_windows_alloc).1).2.ifi_flags
        = (query_netdev envOK (fun _ => .ok goodResp) (some ethName)
            initialOnceState).1.info.ifi_flags
      ∧ netdev_windows_get_etheraddr
          ((netdev_windows_system_construct envOK (fun _ => .ok goodResp)
            (some ethName) initialOnceState netdev_windows_alloc).1).2
        = .ok (query_netdev envOK (fun _ => .ok goodResp) (some ethName)
            initialOnceState).1.info.mac_address
      ∧ netdev_windows_get_mtu
          ((netdev_windows_system_construct envOK (fun _ => .ok goodResp)
            (some ethName) initialOnceState netdev_windows_alloc).1).2
        = .ok (query_netdev envOK (fun _ => .ok goodResp) (some ethName)
            initialOnceState).1.info.mtu
      ∧ netdev_windows_internal_construct envOK (fun _ => .ok goodResp)
          (some ethName) initialOnceState netdev_windows_alloc
        = netdev_windows_system_construct envOK (fun _ => .ok goodResp)
            (some ethName) initialOnceState netdev_windows_alloc) :=
  ⟨by decide,
   successful_construct_seeds_cache envOK (fun _ => .ok goodResp)
     (some ethName) initialOnceState netdev_windows_alloc (by decide)⟩

/-- C6: when a construction on a freshly allocated (zeroed) record fails —
returns a nonzero error — the record's validity mask is 0 and both
accessors signal the invalid-state condition rather than returning a
cached value. -/
theorem failed_construct_signals_invalid_state (env : GlobalEnv)
    (transact : OfpBuf → Except Nat OfpBuf) (devname : Option (List Nat))
    (st : OnceState)
    (h : ((netdev_windows_system_construct env transact devname st
            netdev_windows_alloc).1).1 ≠ 0) :
    ((netdev_windows_system_construct env transact devname st
        netdev_windows_alloc).1).2.cache_valid = 0
    ∧ netdev_windows_get_etheraddr
        ((netdev_windows_system_construct env transact devname st
          netdev_windows_alloc).1).2
      = .invalidState
    ∧ netdev_windows_get_mtu
        ((netdev_windows_system_construct env transact devname st
          netdev_windows_alloc).1).2
      = .invalidState := by
  by_cases hq : (query_netdev env transact devname st).1.error ≠ 0
  · simp only [netdev_windows_system_construct]
    rw [if_pos hq]
    refine ⟨rfl, ?_, ?_⟩
    · simp [netdev_windows_get_etheraddr, netdev_windows_alloc,
        VALID_ETHERADDR]
    · simp [netdev_windows_get_mtu, netdev_windows_alloc, VALID_MTU]
  · exfalso
    apply h
    simp only [netdev_windows_system_construct]
    rw [if_neg hq]

/-- C6 witness: family resolution fails with `ENOENT`, so construction
fails and the fresh record stays invalid. -/
theorem failed_construct_signals_invalid_state_witness :
    (((netdev_windows_system_construct envNoFamily (fun _ => .error 11)
        (some ethName) initialOnceState netdev_windows_alloc).1).1 ≠ 0)
    ∧ (((netdev_windows_system_construct envNoFamily (fun _ => .error 11)
          (some ethName) initialOnceState netdev_windows_alloc).1).2.cache_valid
        = 0
      ∧ netdev_windows_get_etheraddr
          ((netdev_windows_system_construct envNoFamily (fun _ => .error 11)
            (some ethName) initialOnceState netdev_windows_alloc).1).2
        = .invalidState
      ∧ netdev_windows_get_mtu
          ((netdev_windows_system_construct envNoFamily (fun _ => .error 11)
            (some ethName) initialOnceState netdev_windows_alloc).1).2
        = .invalidState) :=
  ⟨by decide,
   failed_construct_signals_invalid_state envNoFamily (fun _ => .error 11)
     (some ethName) initialOnceState (by decide)⟩

/-- C7: a buffer whose fixed-header region is shorter than the three
stacked headers (24 bytes) always fails to decode, and the out-parameter is
the empty (all-zero) record. -/
theorem short_buffer_decode_fails_empty (family : Nat) (buf : OfpBuf)
    (h : buf.bytes.length < FIXED_HDRLEN) :
    netdev_windows_netdev_from_ofpbuf family buf
      = (netdev_windows_info_init, some .truncatedHeader) := by
  simp only [netdev_windows_netdev_from_ofpbuf]
  rw [if_pos h]

/-- C7 witness: the empty buffer. -/
theorem short_buffer_decode_fails_empty_witness :
    ofpbuf_new.bytes.length < FIXED_HDRLEN
    ∧ netdev_windows_netdev_from_ofpbuf 0 ofpbuf_new
      = (netdev_windows_info_init, some .truncatedHeader) :=
  ⟨by decide, short_buffer_decode_fails_empty 0 ofpbuf_new (by decide)⟩

/-- C8: a buffer long enough for the headers whose `nlmsg_type` field
differs from the resolved family id always fails to decode with the
family-mismatch condition, and the out-parameter is the empty record. -/
theorem family_mismatch_decode_fails (family : Nat) (buf : OfpBuf)
    (h1 : ¬ buf.bytes.length < FIXED_HDRLEN)
    (h2 : readU16le buf.bytes 4 ≠ family) :
    netdev_windows_netdev_from_ofpbuf family buf
      = (netdev_windows_info_init, some .familyMismatch) := by
  simp only [netdev_windows_netdev_from_ofpbuf]
  rw [if_neg h1, if_pos h2]

/-- C8 witness: the well-formed family-5 response decoded against family
7. -/
theorem family_mismatch_decode_fails_witness :
    ¬ goodResp.bytes.length < FIXED_HDRLEN
    ∧ readU16le goodResp.bytes 4 ≠ 7
    ∧ netdev_windows_netdev_from_ofpbuf 7 goodResp
      = (netdev_windows_info_init, some .familyMismatch) :=
  ⟨by decide, by decide,
   family_mismatch_decode_fails 7 goodResp (by decide) (by decide)⟩

/-- An attribute stream containing an attribute that violates the policy
(unknown identifier, wrong type tag, or out-of-bounds length), or missing
one of the six required attributes, never passes the policy parse. -/
theorem nl_policy_parse_eq_none (attrs : List NlAttr)
    (h : (∃ a ∈ attrs, attrOK a = false)
      ∨ (∃ i, i < 6 ∧ findAttr i attrs = none)) :
    nl_policy_parse attrs = none := by
  unfold nl_policy_parse
  rcases h with ⟨a, ha, hfa⟩ | ⟨i, hi, hfi⟩
  · have hall : attrs.all attrOK = false := by
      rw [Bool.eq_false_iff]
      intro hall
      have := List.all_eq_true.mp hall a ha
      rw [hfa] at this
      cases this
    simp [hall]
  · have hall : (List.range 6).all (fun i => (findAttr i attrs).isSome)
        = false := by
      rw [Bool.eq_false_iff]
      intro hall
      have := List.all_eq_true.mp hall i (List.mem_range.mpr hi)
      rw [hfi] at this
      cases this
    simp [hall]

/-- C9: with the headers pulled and the family matching, a buffer whose
attribute stream violates the policy — an unknown identifier, a type or
length disagreeing with the policy entry, or a missing required attribute —
always fails to decode with the policy-violation condition, and the
out-parameter is the empty record. -/
theorem policy_violation_decode_fails (family : Nat) (buf : OfpBuf)
    (h1 : ¬ buf.bytes.length < FIXED_HDRLEN)
    (h2 : readU16le buf.bytes 4 = family)
    (h3 : (∃ a ∈ buf.attrs, attrOK a = false)
      ∨ (∃ i, i < 6 ∧ findAttr i buf.attrs = none)) :
    netdev_windows_netdev_from_ofpbuf family buf
      = (netdev_windows_info_init, some .policyViolation) := by
  simp only [netdev_windows_netdev_from_ofpbuf]
  rw [if_neg h1, if_neg (not_not_intro h2), nl_policy_parse_eq_none buf.attrs h3]

/-- A family-5 response whose only attribute has the identifier 9, which is
absent from the policy (and which misses every required attribute). -/
def badAttrsResp : OfpBuf :=
  { bytes := goodRespBytes, attrs := [⟨9, .u32, [0, 0, 0, 0]⟩] }

/-- C9 witness: decoding `badAttrsResp` against family 5. -/
theorem policy_violation_decode_fails_witness :
    ¬ badAttrsResp.bytes.length < FIXED_HDRLEN
    ∧ readU16le badAttrsResp.bytes 4 = 5
    ∧ ((∃ a ∈ badAttrsResp.attrs, attrOK a = false)
      ∨ (∃ i, i < 6 ∧ findAttr i badAttrsResp.attrs = none))
    ∧ netdev_windows_netdev_from_ofpbuf 5 badAttrsResp
      = (netdev_windows_info_init, some .policyViolation) :=
  ⟨by decide, by decide,
   Or.inl ⟨⟨9, .u32, [0, 0, 0, 0]⟩, by decide, by decide⟩,
   policy_violation_decode_fails 5 badAttrsResp (by decide) (by decide)
     (Or.inl ⟨⟨9, .u32, [0, 0, 0, 0]⟩, by decide, by decide⟩)⟩

/-- C10: both published device classes populate the `get_etheraddr` slot
with this module's ether-address accessor and leave the `get_mtu` slot
null, so `netdev_windows_get_mtu` is unreachable through the device-class
interface. -/
theorem published_classes_register_etheraddr_not_mtu :
    netdev_windows_class.get_etheraddr = some netdev_windows_get_etheraddr
    ∧ netdev_windows_class.get_mtu = none
    ∧ netdev_internal_class.get_etheraddr = some netdev_windows_get_etheraddr
    ∧ netdev_internal_class.get_mtu = none :=
  ⟨rfl, rfl, rfl, rfl⟩
